import Mathlib

/-!
Verification of the watermill-jetstream subscriber.

Shallow embedding of the subscriber of `sidkik/watermill-jetstream`
(`pkg/jetstream/subscriber.go` and the topic-interpreter file holding
`ensureStream` / `PublishSubject`), together with proofs about the
subscription lifecycle, acknowledgement handling, validation and shutdown.

Broker behaviour (NATS server responses, which `select` branch fires first,
whether a wait group finishes in time) is passed in as an explicit oracle,
so every Go function becomes a pure Lean function of its inputs and the
oracle, returning its result together with a trace of the broker calls it
performed.
-/

namespace WatermillJetstream

/-! ## Topic interpreter (subjects, streams, publish subjects) -/

/-- Go `Subjects` — nats subject detail (primary + all additional) for a topic. -/
structure Subjects where
  primary : String
  additional : List String
deriving Repr, DecidableEq

/-- Go `(s *Subjects) All()` — `append([]string{s.Primary}, s.Additional...)`. -/
def Subjects.all (s : Subjects) : List String :=
  s.primary :: s.additional

/-- Go `defaultSubjectCalculator` — primary subject `fmt.Sprintf("%s.*", topic)`,
no additional subjects. -/
def defaultSubjectCalculator (topic : String) : Subjects :=
  { primary := topic ++ ".*", additional := [] }

/-- Go `defaultDurableNameCalculator` — `<durableName>_<topic with "." → "_">`. -/
def defaultDurableNameCalculator (durableName topic : String) : String :=
  durableName ++ "_" ++ (topic.replace "." "_")

/-- Go `defaultQueueGroupCalculator` — `<queueGroup>.<topic>`. -/
def defaultQueueGroupCalculator (queueGroup topic : String) : String :=
  queueGroup ++ "." ++ topic

/-- Go `nats.StreamConfig` (the fields `ensureStream` sets). -/
structure StreamConfig where
  name : String
  description : String
  subjects : List String
deriving Repr, DecidableEq

/-- A broker-side error, tagged with whether its reason is
"stream name already in use" so that error taxonomies can be stated. -/
structure BrokerErr where
  alreadyExists : Bool
  msg : String
deriving Repr, DecidableEq

/-- Oracle for the `nats.JetStreamManager` calls made by `ensureStream`:
`streamInfo topic = some e` means the info lookup failed with `e`,
`addStream cfg = some e` means stream creation failed with `e`. -/
structure StreamBroker where
  streamInfo : String → Option BrokerErr
  addStream : StreamConfig → Option BrokerErr

/-- Go `topicInterpreter` — jetstream manager plus the pluggable calculators. -/
structure TopicInterpreter where
  js : StreamBroker
  subjectCalculator : String → Subjects

/-- Go `newTopicInterpreter` — defaults a `nil` formatter to
`defaultSubjectCalculator`. -/
def newTopicInterpreter (js : StreamBroker)
    (formatter : Option (String → Subjects)) : TopicInterpreter :=
  { js := js, subjectCalculator := formatter.getD defaultSubjectCalculator }

/-- The `nats.StreamConfig` literal built inside `ensureStream`:
`Name: topic, Description: "", Subjects: b.subjectCalculator(topic).All()`. -/
def ensureStreamConfig (subjectCalculator : String → Subjects)
    (topic : String) : StreamConfig :=
  { name := topic
    description := ""
    subjects := (subjectCalculator topic).all }

/-- Go `(b *topicInterpreter) ensureStream(topic)`:
`StreamInfo(topic)`; on any lookup error, `AddStream` with the config above
and return its error (nil on success); otherwise return the (nil) error. -/
def TopicInterpreter.ensureStream (b : TopicInterpreter)
    (topic : String) : Option BrokerErr :=
  match b.js.streamInfo topic with
  | none => none
  | some _ => b.js.addStream (ensureStreamConfig b.subjectCalculator topic)

/-- Go `PublishSubject(topic, uuid)` — `fmt.Sprintf("%s.%s", topic, uuid)`. -/
def PublishSubject (topic uuid : String) : String :=
  topic ++ "." ++ uuid

/-! ## Subscriber configuration -/

/-- A decoded watermill message (we only need its UUID). -/
structure Message where
  uuid : String
deriving Repr, DecidableEq

/-- Go `Unmarshaler` capability: raw broker payload to decoded message or error. -/
def Unmarshaler : Type := String → Except String Message

/-- Go `SubscriberSubscriptionConfig`. Durations (`time.Duration`) are modelled
as integer nanosecond counts; the unmarshaler interface value is `Option`
(`none` = Go `nil`). -/
structure SubscriberSubscriptionConfig where
  unmarshaler : Option Unmarshaler
  queueGroup : String
  durableName : String
  subscribersCount : Int
  ackWaitTimeout : Int
  closeTimeout : Int
  subscribeTimeout : Int

/-- Go `time.Second` in nanoseconds. -/
def second : Int := 1000000000

/-- Go `(c *SubscriberSubscriptionConfig) setDefaults()`. -/
def setDefaults (c : SubscriberSubscriptionConfig) : SubscriberSubscriptionConfig :=
  { c with
    subscribersCount := if c.subscribersCount ≤ 0 then 1 else c.subscribersCount
    closeTimeout := if c.closeTimeout ≤ 0 then 30 * second else c.closeTimeout
    ackWaitTimeout := if c.ackWaitTimeout ≤ 0 then 30 * second else c.ackWaitTimeout
    subscribeTimeout := if c.subscribeTimeout ≤ 0 then 30 * second else c.subscribeTimeout }

/-- Go `(c *SubscriberSubscriptionConfig) Validate()` — `some` is the returned
error message, `none` is nil. -/
def validate (c : SubscriberSubscriptionConfig) : Option String :=
  if c.unmarshaler.isNone then
    some "SubscriberConfig.Unmarshaler is missing"
  else if c.queueGroup = "" ∧ c.subscribersCount > 1 then
    some "to set SubscriberConfig.SubscribersCount you need to also set SubscriberConfig.QueueGroup, in other case you will receive duplicated messages"
  else
    none

/-- Go `SubscriberConfig` (the fields that survive into
`GetStreamingSubscriberSubscriptionConfig`, plus the connection URL). -/
structure SubscriberConfig where
  url : String
  clusterID : String
  clientID : String
  queueGroup : String
  durableName : String
  subscribersCount : Int
  closeTimeout : Int
  ackWaitTimeout : Int
  subscribeTimeout : Int
  unmarshaler : Option Unmarshaler

/-- Go `(c *SubscriberConfig) GetStreamingSubscriberSubscriptionConfig()`. -/
def getStreamingSubscriberSubscriptionConfig
    (c : SubscriberConfig) : SubscriberSubscriptionConfig :=
  { unmarshaler := c.unmarshaler
    queueGroup := c.queueGroup
    durableName := c.durableName
    subscribersCount := c.subscribersCount
    ackWaitTimeout := c.ackWaitTimeout
    closeTimeout := c.closeTimeout
    subscribeTimeout := c.subscribeTimeout }

/-! ## Construction (`NewSubscriber`, `NewSubscriberWithNatsConn`) -/

/-- Errors a constructor can return, by taxonomy. -/
inductive ConstructErr
  | connection (msg : String)
  | configuration (msg : String)
  | jetStream (msg : String)
deriving Repr, DecidableEq

/-- Broker interactions performed during construction. -/
inductive BrokerOp
  | connect
deriving Repr, DecidableEq

/-- The state `NewSubscriberWithNatsConn` builds: the (defaulted) config, a
fresh closing channel (not yet closed) and a clear closed flag. -/
structure SubscriberState where
  config : SubscriberSubscriptionConfig
  closed : Bool
  closingClosed : Bool

/-- Go `NewSubscriberWithNatsConn(conn, config, logger)`:
`setDefaults`, then `Validate` (config error), then `conn.JetStream()`
(whose possible error is the oracle `jetStreamErr`). No broker round-trip
is performed here — the connection was handed in. -/
def newSubscriberWithNatsConn (jetStreamErr : Option String)
    (config : SubscriberSubscriptionConfig) :
    Except ConstructErr SubscriberState :=
  match validate (setDefaults config) with
  | some e => .error (.configuration e)
  | none =>
    match jetStreamErr with
    | some e => .error (.jetStream e)
    | none =>
      .ok { config := setDefaults config, closed := false, closingClosed := false }

/-- Go `NewSubscriber(config, logger)`: `nats.Connect` first (oracle
`connectErr`), then `NewSubscriberWithNatsConn` on the derived subscription
config. The trace records the broker interactions in order: the connection
attempt always precedes validation. -/
def newSubscriber (connectErr : Option String) (jetStreamErr : Option String)
    (config : SubscriberConfig) :
    Except ConstructErr SubscriberState × List BrokerOp :=
  match connectErr with
  | some e => (.error (.connection ("cannot connect to NATS: " ++ e)), [.connect])
  | none =>
    (newSubscriberWithNatsConn jetStreamErr
      (getStreamingSubscriberSubscriptionConfig config), [.connect])

/-! ## Per-worker broker subscription (`(s *Subscriber) subscribe`) -/

/-- The broker subscription request a single worker issues: which subject it
subscribes to, and which `nats.SubOpt`s / queue group it passes. -/
structure SubscribeCall where
  subject : String
  durable : Option String
  bindStream : Option String
  queueGroup : Option String
deriving Repr, DecidableEq

/-- Go `(s *Subscriber) subscribe(topic, cb)`:
`subTopic := fmt.Sprintf("%s.*", topic)`; with a durable name configured the
option is `nats.Durable(s.config.DurableName)`, otherwise
`nats.BindStream(subTopic)` — note the argument is `subTopic`, not `topic`;
with a queue group configured the call is `QueueSubscribe`, else `Subscribe`. -/
def subscribeCall (cfg : SubscriberSubscriptionConfig)
    (topic : String) : SubscribeCall :=
  let subTopic := topic ++ ".*"
  { subject := subTopic
    durable := if cfg.durableName ≠ "" then some cfg.durableName else none
    bindStream := if cfg.durableName ≠ "" then none else some subTopic
    queueGroup := if cfg.queueGroup ≠ "" then some cfg.queueGroup else none }

/-! ## `Subscribe(ctx, topic)` — the worker-spawning loop

`Subscribe` increments the subscriber-level `outputsWg` once, then loops
`SubscribersCount` times: each iteration increments the per-call `outputWg`,
issues a broker subscription, and on success spawns a monitor goroutine
(which will call `outputWg.Done` after unsubscribing); on the first failure
it returns `nil, err` immediately. Only after the whole loop succeeds does it
spawn the completion goroutine, which waits for `outputWg` and then calls
`outputsWg.Done` and closes the output channel. -/

/-- Accounting of one `Subscribe` call. `outputWgAdds` counts `outputWg.Add(1)`
executions, `monitorsStarted` the monitor goroutines that will eventually call
`outputWg.Done`, `closerStarted` whether the completion goroutine (the only
caller of `outputsWg.Done` and `close(output)`) was spawned, and
`outputsWgAdds` the `s.outputsWg.Add(1)` executions of this call. -/
structure SubscribeOutcome where
  returnedChannel : Bool
  errored : Bool
  outputWgAdds : Nat
  monitorsStarted : Nat
  closerStarted : Bool
  outputsWgAdds : Nat
deriving Repr, DecidableEq

/-- The `for i := 0; i < SubscribersCount; i++` body, iterated with explicit
fuel. `subOk i = false` means the broker subscription of worker `i` fails.
Returns (`outputWg.Add` count, monitors started, loop completed). -/
def subscribeWorkersLoop (subOk : Nat → Bool) (i : Nat) : Nat → Nat × Nat × Bool
  | 0 => (0, 0, true)
  | fuel + 1 =>
    if subOk i then
      let r := subscribeWorkersLoop subOk (i + 1) fuel
      (r.1 + 1, r.2.1 + 1, r.2.2)
    else
      (1, 0, false)

/-- Go `(s *Subscriber) Subscribe(ctx, topic)` as accounting: `outputsWg.Add(1)`
up front; run the loop; the completion goroutine is spawned (and the output
channel returned) only when every subscription attempt succeeded. -/
def subscribeModel (cfg : SubscriberSubscriptionConfig)
    (subOk : Nat → Bool) : SubscribeOutcome :=
  let r := subscribeWorkersLoop subOk 0 cfg.subscribersCount.toNat
  { returnedChannel := r.2.2
    errored := !r.2.2
    outputWgAdds := r.1
    monitorsStarted := r.2.1
    closerStarted := r.2.2
    outputsWgAdds := 1 }

/-- Whether a later `Close` can see `s.outputsWg` reach zero once every
goroutine this `Subscribe` call started has run to completion: the completion
goroutine is the only caller of `outputsWg.Done`, and it only fires after
`outputWg` itself is balanced (every `Add` matched by a monitor's `Done`). -/
def SubscribeOutcome.closeCanComplete (r : SubscribeOutcome) : Bool :=
  r.outputsWgAdds =
    if r.closerStarted ∧ r.outputWgAdds = r.monitorsStarted then 1 else 0

/-! ## `processMessage` — decode, forward, wait for the acknowledgement -/

/-- Winner of the forwarding `select` (`output <- msg` vs `<-s.closing` vs
`<-ctx.Done()`): whichever is ready first, chosen by the environment. -/
inductive ForwardWinner
  | output
  | closing
  | ctxDone
deriving Repr, DecidableEq

/-- Winner of the acknowledgement `select` (`<-msg.Acked()`,
`<-msg.Nacked()`, `<-time.After(AckWaitTimeout)`, `<-s.closing`,
`<-ctx.Done()`), chosen by the environment. -/
inductive AckWinner
  | acked
  | nacked
  | ackWaitTimeout
  | closing
  | ctxDone
deriving Repr, DecidableEq

/-- Environment of one `processMessage` invocation: the raw payload and
which branch of each `select` fires first. -/
structure PMEnv where
  raw : String
  forward : ForwardWinner
  ack : AckWinner
deriving Repr

/-- Broker-level acknowledgement calls `processMessage` can make. -/
inductive BrokerCall
  | ack
  | nak
deriving Repr, DecidableEq

/-- Observable outcome of `processMessage`: whether the decoded message was
sent on the output channel, and the broker acknowledgement calls made, in
order. -/
structure PMResult where
  forwarded : Bool
  calls : List BrokerCall
deriving Repr, DecidableEq

/-- Go `(s *Subscriber) processMessage(ctx, m, output, logFields)`:
return if closed; unmarshal (errors are logged and drop the message);
forward `select` (losing to `closing`/`ctx.Done()` drops the message);
acknowledgement `select` (ack → `m.Ack()`, nack → `m.Nak()`, timeout /
closing / context-cancel → no broker call). The `nil`-unmarshaler branch
cannot be reached from a validated configuration (`Validate` rejects it);
it is modelled as a drop. -/
def processMessage (cfg : SubscriberSubscriptionConfig) (closed : Bool)
    (env : PMEnv) : PMResult :=
  if closed then ⟨false, []⟩
  else
    match cfg.unmarshaler with
    | none => ⟨false, []⟩
    | some u =>
      match u env.raw with
      | .error _ => ⟨false, []⟩
      | .ok _ =>
        match env.forward with
        | .closing => ⟨false, []⟩
        | .ctxDone => ⟨false, []⟩
        | .output =>
          match env.ack with
          | .acked => ⟨true, [.ack]⟩
          | .nacked => ⟨true, [.nak]⟩
          | .ackWaitTimeout => ⟨true, []⟩
          | .closing => ⟨true, []⟩
          | .ctxDone => ⟨true, []⟩

/-! ## `Close()` -/

/-- Environment of one `Close` call: the time at which `s.outputsWg`
reaches zero (`none` = never), and whether `conn.Drain()` fails. -/
structure CloseEnv where
  wgFinishAt : Option Int
  drainErr : Option String
deriving Repr

/-- Side effects of one `Close` call. -/
structure CloseTrace where
  closedClosingChannel : Bool
  drainCalled : Bool
deriving Repr, DecidableEq

/-- Go `internalSync.WaitGroupTimeout(&wg, timeout)` — `true` when the wait
group did not finish within `timeout`. -/
def waitGroupTimeout (wgFinishAt : Option Int) (timeout : Int) : Bool :=
  match wgFinishAt with
  | some t => !(t ≤ timeout : Bool)
  | none => true

/-- The mutable subscriber fields `Close` touches. -/
structure CloseState where
  closed : Bool
  closingClosed : Bool
deriving Repr, DecidableEq

/-- Go `(s *Subscriber) Close()`: under the lock, return nil if already closed;
set `closed`, `close(s.closing)`; wait (bounded by `CloseTimeout`) on
`outputsWg` — on timeout return the error *without* draining; then
`conn.Drain()` and wrap its error. -/
def closeModel (cfg : SubscriberSubscriptionConfig) (s : CloseState)
    (env : CloseEnv) : CloseState × Option String × CloseTrace :=
  if s.closed then
    (s, none, ⟨false, false⟩)
  else
    let s' : CloseState := { closed := true, closingClosed := true }
    if waitGroupTimeout env.wgFinishAt cfg.closeTimeout then
      (s', some "output wait group did not finish", ⟨true, false⟩)
    else
      match env.drainErr with
      | some e => (s', some ("cannot close conn: " ++ e), ⟨true, true⟩)
      | none => (s', none, ⟨true, true⟩)

/-! ## Concrete sample inputs (shared by several theorems below) -/

/-- An unmarshaler that always succeeds. -/
def okUnmarshaler : Unmarshaler := fun _ => .ok { uuid := "msg-1" }

/-- An unmarshaler that always fails. -/
def failingUnmarshaler : Unmarshaler := fun _ => .error "cannot unmarshal"

/-- A defaulted single-subscriber configuration, no durable name, no queue
group. -/
def sampleConfig : SubscriberSubscriptionConfig :=
  { unmarshaler := some okUnmarshaler
    queueGroup := ""
    durableName := ""
    subscribersCount := 1
    ackWaitTimeout := 30 * second
    closeTimeout := 30 * second
    subscribeTimeout := 30 * second }

/-- Two subscribers in queue group "g1". -/
def queueConfig : SubscriberSubscriptionConfig :=
  { sampleConfig with queueGroup := "g1", subscribersCount := 2 }

/-- A configuration with a durable name. -/
def durableConfig : SubscriberSubscriptionConfig :=
  { sampleConfig with durableName := "dur" }

/-- A configuration whose unmarshaler always fails. -/
def failingConfig : SubscriberSubscriptionConfig :=
  { sampleConfig with unmarshaler := some failingUnmarshaler }

/-- A broker whose stream-info lookup fails and whose creation call then
reports "stream name already in use". -/
def alreadyExistsBroker : StreamBroker :=
  { streamInfo := fun _ => some { alreadyExists := false, msg := "stream not found" }
    addStream := fun _ => some { alreadyExists := true, msg := "stream name already in use" } }

/-- A broker on which every stream-info lookup succeeds. -/
def existingStreamBroker : StreamBroker :=
  { streamInfo := fun _ => none
    addStream := fun _ => some { alreadyExists := true, msg := "stream name already in use" } }

/-- A `SubscriberConfig` with no unmarshaler configured. -/
def missingUnmarshalerConfig : SubscriberConfig :=
  { url := "nats://localhost:4222", clusterID := "", clientID := ""
    queueGroup := "", durableName := "", subscribersCount := 1
    closeTimeout := 0, ackWaitTimeout := 0, subscribeTimeout := 0
    unmarshaler := none }

/-- Subscription-attempt oracle: worker 0 succeeds, worker 1 fails. -/
def subOkFailSecond : Nat → Bool := fun i => i == 0

/-! ## Theorems -/

/-- C8: for every topic and id, `PublishSubject(topic, id)` is
`<topic>.<id>`; every worker for that topic subscribes to the wildcard
subject `<topic>.*`, i.e. the common prefix `<topic>.` followed by the
single wildcard token `*`; and the publish subject is exactly that wildcard
subject with the final `*` segment instantiated by the id (same prefix,
`*` replaced by `id`). -/
theorem publishSubject_matches_subscribe_wildcard
    (cfg : SubscriberSubscriptionConfig) (topic id : String) :
    PublishSubject topic id = topic ++ "." ++ id ∧
    (subscribeCall cfg topic).subject = (topic ++ ".") ++ "*" ∧
    PublishSubject topic id = (topic ++ ".") ++ id := by
  refine ⟨rfl, ?_, ?_⟩
  · simp [subscribeCall, String.append_assoc]
  · simp [PublishSubject, String.append_assoc]

/-- C5 counterexample: when the info lookup fails and `AddStream` then fails
with reason "stream name already in use", `ensureStream` returns that error —
the code has no special case for already-exists errors, so it does not fail
*only* for reasons other than "already exists". -/
theorem ensureStream_propagates_alreadyExists_error :
    (newTopicInterpreter alreadyExistsBroker none).ensureStream "orders" =
      some { alreadyExists := true, msg := "stream name already in use" } := by
  rfl

/-- C5 (amended): `ensureStream` queries stream info by topic name and
returns nil when the lookup succeeds; on any lookup failure it issues
`AddStream` for a stream named after the topic with subject list
`subjectCalculator(topic).All()` (default `["<topic>.*"]`) and returns that
call's result — nil when creation succeeds, and the creation error whenever
creation fails, for any reason including "already exists". -/
theorem ensureStream_spec (b : StreamBroker) (topic : String) :
    (b.streamInfo topic = none →
      (newTopicInterpreter b none).ensureStream topic = none) ∧
    (b.streamInfo topic ≠ none →
      (newTopicInterpreter b none).ensureStream topic =
        b.addStream { name := topic, description := "", subjects := [topic ++ ".*"] }) := by
  constructor
  · intro h
    simp [TopicInterpreter.ensureStream, newTopicInterpreter, h]
  · intro h
    obtain ⟨e, he⟩ := Option.ne_none_iff_exists'.mp h
    simp [TopicInterpreter.ensureStream, newTopicInterpreter, he,
      ensureStreamConfig, defaultSubjectCalculator, Subjects.all]

/-- Witness for `ensureStream_spec` at a broker that has the stream and a
broker that must create it. -/
theorem ensureStream_spec_witness :
    (newTopicInterpreter existingStreamBroker none).ensureStream "orders" = none ∧
    (newTopicInterpreter alreadyExistsBroker none).ensureStream "orders" =
      alreadyExistsBroker.addStream
        { name := "orders", description := "", subjects := ["orders.*"] } :=
  ⟨(ensureStream_spec existingStreamBroker "orders").1 rfl,
    (ensureStream_spec alreadyExistsBroker "orders").2 (by simp [alreadyExistsBroker])⟩

/-- C4 (code bug): without a durable name a worker for topic "orders"
subscribes to subject "orders.*" but passes `subTopic` — the wildcard
subject "orders.*", not the stream name — to `nats.BindStream`, while
`ensureStream` names the stream "orders"; with a durable name configured
the subscription instead carries that durable name. -/
theorem subscribeCall_binds_wildcard_not_stream_name :
    (subscribeCall sampleConfig "orders").subject = "orders.*" ∧
    (subscribeCall sampleConfig "orders").bindStream = some "orders.*" ∧
    (ensureStreamConfig defaultSubjectCalculator "orders").name = "orders" ∧
    (subscribeCall sampleConfig "orders").bindStream ≠
      some (ensureStreamConfig defaultSubjectCalculator "orders").name ∧
    (subscribeCall durableConfig "orders").durable = some "dur" ∧
    (subscribeCall durableConfig "orders").bindStream = none := by
  refine ⟨rfl, rfl, rfl, ?_, rfl, rfl⟩
  intro h
  simp [subscribeCall, sampleConfig, ensureStreamConfig] at h

/-- Go `Validate` returns nil exactly when the unmarshaler is present and it is
not the case that the queue group is empty while `SubscribersCount > 1`. -/
theorem validate_eq_none_iff (c : SubscriberSubscriptionConfig) :
    validate c = none ↔
      (c.unmarshaler ≠ none ∧ ¬(c.queueGroup = "" ∧ c.subscribersCount > 1)) := by
  unfold validate
  rcases h : c.unmarshaler with _ | u <;>
    by_cases h2 : c.queueGroup = "" ∧ c.subscribersCount > 1 <;>
      simp [h, h2]

/-- C6 counterexample: with a reachable broker, `NewSubscriber` on a
configuration whose unmarshaler is missing does fail with the configuration
error, but its broker-interaction trace already contains the connection made
by `nats.Connect` — validation runs only after the broker was contacted, so
the failure is not "before any broker interaction". -/
theorem newSubscriber_connects_before_validating :
    (newSubscriber none none missingUnmarshalerConfig).1 =
      .error (.configuration "SubscriberConfig.Unmarshaler is missing") ∧
    (newSubscriber none none missingUnmarshalerConfig).2 = [BrokerOp.connect] ∧
    (newSubscriber none none missingUnmarshalerConfig).2 ≠ [] := by
  refine ⟨rfl, rfl, ?_⟩
  intro h
  simp [newSubscriber, missingUnmarshalerConfig] at h

/-- C6 (amended): construction fails with a configuration error exactly when
the unmarshaler is missing or, after defaulting, `SubscribersCount > 1` with
an empty queue group; `NewSubscriberWithNatsConn` performs this validation
without any broker interaction, but `NewSubscriber` first connects to the
broker and only then validates, so on that path the configuration error is
returned after the connection was established. -/
theorem construction_configuration_error_iff (cfg : SubscriberConfig)
    (jsErr : Option String) :
    ((∃ e, newSubscriberWithNatsConn jsErr
        (getStreamingSubscriberSubscriptionConfig cfg) = .error (.configuration e)) ↔
      (cfg.unmarshaler = none ∨
        (cfg.queueGroup = "" ∧
          (setDefaults (getStreamingSubscriberSubscriptionConfig cfg)).subscribersCount > 1))) ∧
    (newSubscriber none jsErr cfg).1 =
      newSubscriberWithNatsConn jsErr (getStreamingSubscriberSubscriptionConfig cfg) ∧
    (newSubscriber none jsErr cfg).2 = [BrokerOp.connect] := by
  refine ⟨?_, rfl, rfl⟩
  have hu : (setDefaults (getStreamingSubscriberSubscriptionConfig cfg)).unmarshaler =
      cfg.unmarshaler := rfl
  have hq : (setDefaults (getStreamingSubscriberSubscriptionConfig cfg)).queueGroup =
      cfg.queueGroup := rfl
  constructor
  · rintro ⟨e, he⟩
    by_contra hcon
    push_neg at hcon
    have hv : validate (setDefaults (getStreamingSubscriberSubscriptionConfig cfg)) = none := by
      rw [validate_eq_none_iff, hu, hq]
      exact ⟨hcon.1, fun hx => absurd hx.2 (not_lt.mpr (hcon.2 hx.1))⟩
    unfold newSubscriberWithNatsConn at he
    rw [hv] at he
    cases jsErr <;> simp at he
  · intro h
    have hv : validate (setDefaults (getStreamingSubscriberSubscriptionConfig cfg)) ≠ none := by
      intro hveq
      rw [validate_eq_none_iff, hu, hq] at hveq
      rcases h with h | h
      · exact hveq.1 h
      · exact hveq.2 h
    obtain ⟨e, he⟩ := Option.ne_none_iff_exists'.mp hv
    refine ⟨e, ?_⟩
    unfold newSubscriberWithNatsConn
    rw [he]

/-- Witness for `construction_configuration_error_iff`: the missing
unmarshaler yields a configuration error, after the connection. -/
theorem construction_configuration_error_iff_witness :
    (∃ e, newSubscriberWithNatsConn none
      (getStreamingSubscriberSubscriptionConfig missingUnmarshalerConfig) =
        .error (.configuration e)) ∧
    (newSubscriber none none missingUnmarshalerConfig).2 = [BrokerOp.connect] :=
  ⟨(construction_configuration_error_iff missingUnmarshalerConfig none).1.mpr
      (Or.inl rfl),
    (construction_configuration_error_iff missingUnmarshalerConfig none).2.2⟩

/-- After a first `Close` on a non-closed subscriber, the closed flag is set
and the closing channel has been closed, whatever the wait or drain did. -/
theorem closeModel_first_state (cfg : SubscriberSubscriptionConfig)
    (s : CloseState) (env : CloseEnv) (h : s.closed = false) :
    (closeModel cfg s env).1 = ⟨true, true⟩ ∧
    (closeModel cfg s env).2.2.closedClosingChannel = true := by
  unfold closeModel
  rw [h]
  simp only [Bool.false_eq_true, if_false]
  split
  · exact ⟨rfl, rfl⟩
  · cases env.drainErr <;> exact ⟨rfl, rfl⟩

/-- C7: `Close` is idempotent single-shot — the first call on a non-closed
subscriber sets the closed flag and closes the closing broadcast channel,
and any second call is a no-op returning nil: it leaves the state unchanged,
closes nothing, waits for nothing and drains nothing. -/
theorem close_single_shot (cfg : SubscriberSubscriptionConfig)
    (s : CloseState) (env env2 : CloseEnv) (h : s.closed = false) :
    (closeModel cfg s env).1.closed = true ∧
    (closeModel cfg s env).2.2.closedClosingChannel = true ∧
    closeModel cfg (closeModel cfg s env).1 env2 =
      ((closeModel cfg s env).1, none, ⟨false, false⟩) := by
  obtain ⟨h1, h2⟩ := closeModel_first_state cfg s env h
  refine ⟨by rw [h1], h2, ?_⟩
  rw [h1]
  rfl

/-- Witness for `close_single_shot` on the sample configuration, a fresh
subscriber state and an environment whose wait group finishes immediately. -/
theorem close_single_shot_witness :
    (closeModel sampleConfig ⟨false, false⟩ ⟨some 0, none⟩).1.closed = true ∧
    (closeModel sampleConfig ⟨false, false⟩ ⟨some 0, none⟩).2.2.closedClosingChannel = true ∧
    closeModel sampleConfig (closeModel sampleConfig ⟨false, false⟩ ⟨some 0, none⟩).1 ⟨some 0, none⟩ =
      ((closeModel sampleConfig ⟨false, false⟩ ⟨some 0, none⟩).1, none, ⟨false, false⟩) :=
  close_single_shot sampleConfig ⟨false, false⟩ ⟨some 0, none⟩ ⟨some 0, none⟩ rfl

/-- C3 counterexample: on a first `Close` whose wait group never finishes,
`Close` returns the timeout error and `conn.Drain()` is never called — the
drain is not "still attempted despite the timeout". -/
theorem close_timeout_skips_drain :
    (closeModel sampleConfig ⟨false, false⟩ ⟨none, none⟩).2.1 =
      some "output wait group did not finish" ∧
    (closeModel sampleConfig ⟨false, false⟩ ⟨none, none⟩).2.2.drainCalled = false := by
  exact ⟨rfl, rfl⟩

/-- C3 (amended): on a first `Close` whose completion wait group does not
finish within `CloseTimeout`, `Close` returns an error, and the connection
drain is *not* attempted — `Close` returns before reaching `conn.Drain()`. -/
theorem close_timeout_returns_error_without_drain
    (cfg : SubscriberSubscriptionConfig) (s : CloseState) (env : CloseEnv)
    (h : s.closed = false)
    (ht : waitGroupTimeout env.wgFinishAt cfg.closeTimeout = true) :
    closeModel cfg s env =
      (⟨true, true⟩, some "output wait group did not finish", ⟨true, false⟩) := by
  unfold closeModel
  rw [h, ht]
  simp

/-- Witness for `close_timeout_returns_error_without_drain` with a wait
group that never finishes. -/
theorem close_timeout_returns_error_without_drain_witness :
    closeModel sampleConfig ⟨false, false⟩ ⟨none, none⟩ =
      (⟨true, true⟩, some "output wait group did not finish", ⟨true, false⟩) :=
  close_timeout_returns_error_without_drain sampleConfig ⟨false, false⟩
    ⟨none, none⟩ rfl rfl

/-- C9: a raw message whose `Unmarshal` fails is dropped by
`processMessage`: it is never sent on the output channel, and no broker
acknowledgement call — neither `Ack` nor `Nak` — is made. -/
theorem processMessage_unmarshal_error_drops
    (cfg : SubscriberSubscriptionConfig) (closed : Bool) (env : PMEnv)
    (u : Unmarshaler) (e : String)
    (hc : closed = false)
    (hu : cfg.unmarshaler = some u)
    (he : u env.raw = .error e) :
    processMessage cfg closed env = ⟨false, []⟩ := by
  simp [processMessage, hc, hu, he]

/-- Witness for `processMessage_unmarshal_error_drops` on the failing
unmarshaler. -/
theorem processMessage_unmarshal_error_drops_witness :
    processMessage failingConfig false ⟨"payload", .output, .acked⟩ = ⟨false, []⟩ :=
  processMessage_unmarshal_error_drops failingConfig false
    ⟨"payload", .output, .acked⟩ failingUnmarshaler "cannot unmarshal" rfl rfl rfl

/-- C1: for every message that `processMessage` decodes and forwards onto
the output channel (the forwarding `select` is won by the output channel),
exactly one terminal outcome occurs, decided by the single winner of the
acknowledgement `select`: consumer ack first gives exactly the one broker
call `Ack`, consumer nack first gives exactly the one broker call `Nak`,
and ack-wait timeout, the closing signal or per-message context
cancellation give no broker call at all; in every case at most one broker
acknowledgement call is made, and `processMessage` returns after it — no
message re-enters the waiting `select`. -/
theorem processMessage_exactly_one_terminal
    (cfg : SubscriberSubscriptionConfig) (closed : Bool) (env : PMEnv)
    (u : Unmarshaler) (m : Message)
    (hc : closed = false)
    (hu : cfg.unmarshaler = some u)
    (hm : u env.raw = .ok m)
    (hf : env.forward = .output) :
    (processMessage cfg closed env).forwarded = true ∧
    (processMessage cfg closed env).calls.length ≤ 1 ∧
    ((env.ack = .acked ∧ (processMessage cfg closed env).calls = [.ack]) ∨
     (env.ack = .nacked ∧ (processMessage cfg closed env).calls = [.nak]) ∨
     ((env.ack = .ackWaitTimeout ∨ env.ack = .closing ∨ env.ack = .ctxDone) ∧
       (processMessage cfg closed env).calls = [])) := by
  cases ha : env.ack <;>
    simp [processMessage, hc, hu, hm, hf, ha]

/-- Witness for `processMessage_exactly_one_terminal`: a consumer ack on the
sample configuration makes exactly the one broker call `Ack`. -/
theorem processMessage_exactly_one_terminal_witness :
    (processMessage sampleConfig false ⟨"payload", .output, .acked⟩).forwarded = true ∧
    (processMessage sampleConfig false ⟨"payload", .output, .acked⟩).calls.length ≤ 1 ∧
    ((PMEnv.mk "payload" .output .acked).ack = .acked ∧
      (processMessage sampleConfig false ⟨"payload", .output, .acked⟩).calls = [.ack] ∨
     (PMEnv.mk "payload" .output .acked).ack = .nacked ∧
      (processMessage sampleConfig false ⟨"payload", .output, .acked⟩).calls = [.nak] ∨
     ((PMEnv.mk "payload" .output .acked).ack = .ackWaitTimeout ∨
      (PMEnv.mk "payload" .output .acked).ack = .closing ∨
      (PMEnv.mk "payload" .output .acked).ack = .ctxDone) ∧
      (processMessage sampleConfig false ⟨"payload", .output, .acked⟩).calls = []) :=
  processMessage_exactly_one_terminal sampleConfig false
    ⟨"payload", .output, .acked⟩ okUnmarshaler { uuid := "msg-1" } rfl rfl rfl rfl

/-- When the first failing subscription attempt is attempt `i` (all earlier
attempts succeed), the `Subscribe` loop stops there having executed
`i + 1` `outputWg.Add(1)` calls but started only `i` monitor goroutines. -/
theorem subscribeWorkersLoop_first_failure (subOk : Nat → Bool) :
    ∀ (i fuel start : Nat), i < fuel →
      (∀ j, j < i → subOk (start + j) = true) →
      subOk (start + i) = false →
      subscribeWorkersLoop subOk start fuel = (i + 1, i, false) := by
  intro i
  induction i with
  | zero =>
    intro fuel start hlt hok hfail
    match fuel, hlt with
    | f + 1, _ =>
      rw [Nat.add_zero] at hfail
      simp [subscribeWorkersLoop, hfail]
  | succ n ih =>
    intro fuel start hlt hok hfail
    match fuel, hlt with
    | f + 1, hlt =>
      have h0 : subOk start = true := by
        have := hok 0 (Nat.succ_pos n)
        rwa [Nat.add_zero] at this
      have hrec : subscribeWorkersLoop subOk (start + 1) f = (n + 1, n, false) := by
        refine ih f (start + 1) (Nat.lt_of_succ_lt_succ hlt) ?_ ?_
        · intro j hj
          have := hok (j + 1) (Nat.succ_lt_succ hj)
          rwa [show start + (j + 1) = start + 1 + j by omega] at this
        · rwa [show start + (n + 1) = start + 1 + n by omega] at hfail
      simp [subscribeWorkersLoop, h0, hrec]

/-- C2 counterexample: with two subscribers where the second broker
subscription attempt fails, `Subscribe` returns no channel and an error and
the one started worker has its monitor, but the accounting is left
unbalanced — `s.outputsWg` was incremented while the completion goroutine
that decrements it was never started (and the per-call `outputWg` holds the
failed attempt's increment, 2 adds against 1 monitor) — so a later `Close`
can never see the wait group finish. -/
theorem subscribe_midloop_failure_unbalanced :
    subscribeModel queueConfig subOkFailSecond =
      ⟨false, true, 2, 1, false, 1⟩ ∧
    (subscribeModel queueConfig subOkFailSecond).closeCanComplete = false := by
  exact ⟨rfl, rfl⟩

/-- C2 (amended): when the `i`-th broker subscription attempt fails (all
earlier ones succeeded, `i < SubscribersCount`), `Subscribe` returns a nil
channel and an error and each of the `i` already-started workers has its
monitor goroutine to shut it down; but the completion accounting is *not*
balanced: the call incremented `s.outputsWg` without starting the completion
goroutine that decrements it, and the per-call `outputWg` keeps the failed
attempt's increment (`i + 1` adds, `i` monitors), so a later `Close` cannot
see the wait group complete. -/
theorem subscribe_midloop_failure_spec (cfg : SubscriberSubscriptionConfig)
    (subOk : Nat → Bool) (i : Nat)
    (hi : i < cfg.subscribersCount.toNat)
    (hok : ∀ j, j < i → subOk j = true)
    (hfail : subOk i = false) :
    subscribeModel cfg subOk = ⟨false, true, i + 1, i, false, 1⟩ ∧
    (subscribeModel cfg subOk).closeCanComplete = false := by
  have hloop : subscribeWorkersLoop subOk 0 cfg.subscribersCount.toNat =
      (i + 1, i, false) := by
    refine subscribeWorkersLoop_first_failure subOk i cfg.subscribersCount.toNat 0 hi ?_ ?_
    · intro j hj
      rw [Nat.zero_add]
      exact hok j hj
    · rwa [Nat.zero_add]
  have hmodel : subscribeModel cfg subOk = ⟨false, true, i + 1, i, false, 1⟩ := by
    simp [subscribeModel, hloop]
  refine ⟨hmodel, ?_⟩
  rw [hmodel]
  simp [SubscribeOutcome.closeCanComplete]

/-- Witness for `subscribe_midloop_failure_spec` at the queue configuration
with the second attempt failing. -/
theorem subscribe_midloop_failure_spec_witness :
    subscribeModel queueConfig subOkFailSecond =
      ⟨false, true, 1 + 1, 1, false, 1⟩ ∧
    (subscribeModel queueConfig subOkFailSecond).closeCanComplete = false :=
  subscribe_midloop_failure_spec queueConfig subOkFailSecond 1
    (by norm_num [queueConfig, sampleConfig])
    (fun j hj => by
      have : j = 0 := by omega
      subst this
      rfl)
    rfl

/-- C10: `SubscribeTimeout` has no effect on behaviour — for two
configurations that differ only in `SubscribeTimeout`, validation, the
`Subscribe` worker loop, the per-worker broker subscription request (used by
both subscription entry points), message processing and `Close` all behave
identically; after `setDefaults` writes the field it is never read. -/
theorem subscribeTimeout_has_no_effect (cfg : SubscriberSubscriptionConfig)
    (t : Int) :
    validate (setDefaults { cfg with subscribeTimeout := t }) =
      validate (setDefaults cfg) ∧
    (∀ subOk, subscribeModel (setDefaults { cfg with subscribeTimeout := t }) subOk =
      subscribeModel (setDefaults cfg) subOk) ∧
    (∀ topic, subscribeCall (setDefaults { cfg with subscribeTimeout := t }) topic =
      subscribeCall (setDefaults cfg) topic) ∧
    (∀ closed env, processMessage (setDefaults { cfg with subscribeTimeout := t }) closed env =
      processMessage (setDefaults cfg) closed env) ∧
    (∀ s env, closeModel (setDefaults { cfg with subscribeTimeout := t }) s env =
      closeModel (setDefaults cfg) s env) := by
  exact ⟨rfl, fun _ => rfl, fun _ => rfl, fun _ _ => rfl, fun _ _ => rfl⟩

end WatermillJetstream
